import Mathlib

/-!
# Verification of the packetdrill MPTCP option-rewriting engine

A shallow embedding of `gtests/net/packetdrill/mptcp.c`: the MPTCP
option-rewriting and state-tracking engine of the packetdrill fork.  Pure
functions of the source become Lean functions; the global `mp_state` and the
in-place mutation of TCP options become explicit state passing.  Machine
integers are `Nat` with explicit `% 2^w` at the points where the C types
truncate.  A `none` result of a handler models a NULL-pointer dereference
(undefined behaviour) in the C code.

The SHA-1 and HMAC-SHA1 primitives are consumed by the source as black boxes
(they live outside the analysed file); they are implemented here concretely,
following FIPS 180-4 and RFC 2104, so that derived values can be evaluated on
concrete inputs.  The host is modelled as a 64-bit little-endian machine
(`unsigned long` is 8 bytes, `unsigned` is 4 bytes), which is the platform the
source targets in practice.
-/

set_option maxRecDepth 100000
set_option maxHeartbeats 1000000

namespace PacketdrillMptcp

/-! ## Byte-order helpers -/

/-- The `k` bytes of `n` in little-endian order (memory image on the host). -/
def bytesLE (k n : Nat) : List Nat := (List.range k).map (fun i => n / 256 ^ i % 256)

/-- The `k` bytes of `n` in big-endian (network) order. -/
def bytesBE (k n : Nat) : List Nat := (bytesLE k n).reverse

/-- Read a big-endian byte sequence as a natural number. -/
def natOfBytesBE (l : List Nat) : Nat := l.foldl (fun a b => a * 256 + b % 256) 0

/-- Byte-swap a `k`-byte value (little-endian host word reinterpreted big-endian). -/
def swapN (k x : Nat) : Nat := natOfBytesBE (bytesLE k x)

/-- `ntohs` on a little-endian host: byte-swap a 16-bit value. -/
def c_ntohs (x : Nat) : Nat := swapN 2 (x % 2 ^ 16)

/-- `htons` on a little-endian host. -/
def c_htons (x : Nat) : Nat := swapN 2 (x % 2 ^ 16)

/-- `htonl` on a little-endian host. -/
def c_htonl (x : Nat) : Nat := swapN 4 (x % 2 ^ 32)

/-- `htobe64` on a little-endian host. -/
def c_htobe64 (x : Nat) : Nat := swapN 8 (x % 2 ^ 64)

/-- Conversion of a C `int` expression to `u16` (two's-complement truncation). -/
def u16ofInt (x : Int) : Nat := (x % 65536).toNat

/-! ## SHA-1 (FIPS 180-4), executable over byte lists -/

/-- Left-rotation of a 32-bit word. -/
def rotl (n x : Nat) : Nat := (x * 2 ^ n + x / 2 ^ (32 - n)) % 2 ^ 32

/-- The SHA-1 round function `f_t`. -/
def sha1F (t b c d : Nat) : Nat :=
  if t < 20 then (b &&& c) ||| ((4294967295 - b) &&& d)
  else if t < 40 then b ^^^ c ^^^ d
  else if t < 60 then (b &&& c) ||| (b &&& d) ||| (c &&& d)
  else b ^^^ c ^^^ d

/-- The SHA-1 round constants `K_t`. -/
def sha1K (t : Nat) : Nat :=
  if t < 20 then 0x5A827999
  else if t < 40 then 0x6ED9EBA1
  else if t < 60 then 0x8F1BBCDC
  else 0xCA62C1D6

/-- The 80-word SHA-1 message schedule of one 16-word block. -/
def sha1W (block : List Nat) : Array Nat :=
  (List.range 80).foldl (fun a t =>
    if t < 16 then a.push (block.getD t 0)
    else a.push (rotl 1 (a.getD (t - 3) 0 ^^^ a.getD (t - 8) 0 ^^^
      a.getD (t - 14) 0 ^^^ a.getD (t - 16) 0))) #[]

/-- One SHA-1 round on the working state `(a, b, c, d, e)`. -/
def sha1Round (w : Array Nat) (st : Nat × Nat × Nat × Nat × Nat) (t : Nat) :
    Nat × Nat × Nat × Nat × Nat :=
  match st with
  | (a, b, c, d, e) =>
    ((rotl 5 a + sha1F t b c d + e + w.getD t 0 + sha1K t) % 2 ^ 32, a, rotl 30 b, c, d)

/-- Compression of one 64-byte block into the hash state. -/
def sha1Block (h : Nat × Nat × Nat × Nat × Nat) (block : List Nat) :
    Nat × Nat × Nat × Nat × Nat :=
  match (List.range 80).foldl (sha1Round (sha1W block)) h, h with
  | (a, b, c, d, e), (h0, h1, h2, h3, h4) =>
    ((h0 + a) % 2 ^ 32, (h1 + b) % 2 ^ 32, (h2 + c) % 2 ^ 32,
     (h3 + d) % 2 ^ 32, (h4 + e) % 2 ^ 32)

/-- Split a 64-byte block into 16 big-endian 32-bit words. -/
def words16 (bs : List Nat) : List Nat :=
  (List.range 16).map (fun i => natOfBytesBE ((bs.drop (4 * i)).take 4))

/-- Fuel-driven chunking into 64-byte blocks (structural recursion on the fuel,
so that concrete evaluation reduces in the kernel). -/
def chunks64F : Nat → List Nat → List (List Nat)
  | 0, _ => []
  | _, [] => []
  | fuel + 1, l => l.take 64 :: chunks64F fuel (l.drop 64)

/-- Chunk a padded message into its 64-byte blocks. -/
def chunks64 (l : List Nat) : List (List Nat) := chunks64F (l.length / 64 + 1) l

/-- SHA-1 padding: `0x80`, zeros to 56 mod 64, then the 64-bit bit length. -/
def sha1pad (msg : List Nat) : List Nat :=
  msg ++ [0x80] ++ List.replicate ((55 + 64 - msg.length % 64) % 64) 0 ++
    bytesBE 8 (msg.length * 8)

/-- SHA-1 of a byte list; 20 digest bytes. -/
def sha1 (msg : List Nat) : List Nat :=
  match ((chunks64 (sha1pad msg)).map words16).foldl sha1Block
      (0x67452301, 0xEFCDAB89, 0x98BADCFE, 0x10325476, 0xC3D2E1F0) with
  | (h0, h1, h2, h3, h4) =>
    bytesBE 4 h0 ++ bytesBE 4 h1 ++ bytesBE 4 h2 ++ bytesBE 4 h3 ++ bytesBE 4 h4

/-- HMAC-SHA1 (RFC 2104) of a key and message, both byte lists; 20 tag bytes. -/
def hmac_sha1 (key msg : List Nat) : List Nat :=
  let k0 := if key.length ≤ 64 then key ++ List.replicate (64 - key.length) 0
            else sha1 key ++ List.replicate 44 0
  sha1 (k0.map (fun b => b ^^^ 0x5C) ++ sha1 (k0.map (fun b => b ^^^ 0x36) ++ msg))

/-- Modelled from the spec: the source's `sha1_least_32bits` primitive (outside the
analysed file) — the least-significant 32 bits of SHA1 of the 8-byte network-order
serialization of the key, i.e. the last 4 digest bytes read big-endian. -/
def sha1_least_32bits (key : Nat) : Nat :=
  natOfBytesBE ((sha1 (bytesBE 8 (key % 2 ^ 64))).drop 16)

/-- Modelled from the spec: the source's `sha1_least_64bits` primitive — the
least-significant 64 bits of SHA1 of the 8-byte network-order serialization of
the key, i.e. the last 8 digest bytes read big-endian. -/
def sha1_least_64bits (key : Nat) : Nat :=
  natOfBytesBE ((sha1 (bytesBE 8 (key % 2 ^ 64))).drop 12)

/-- The token derivation as the examined claim states it (refinement definition,
written from the spec's words, to be compared with the source's derivation):
the high (most-significant) 32 bits of SHA1 of the 8-byte network-order
serialization of the key, i.e. the first 4 digest bytes read big-endian. -/
def token32_claim (key : Nat) : Nat :=
  natOfBytesBE ((sha1 (bytesBE 8 (key % 2 ^ 64))).take 4)

/-- Modelled from the spec: the source's `hmac_sha1_truncat_64` primitive — the
leading 64 bits of the HMAC-SHA1 tag, i.e. the first 8 tag bytes read big-endian. -/
def hmac_sha1_truncat_64 (key msg : List Nat) : Nat :=
  natOfBytesBE ((hmac_sha1 key msg).take 8)

/-! ## Protocol constants

Option kind / subtype / length constants from `mptcp.h` and RFC 6824. -/

def TCPOPT_MPTCP : Nat := 30

def MP_CAPABLE_SUBTYPE : Nat := 0

def MP_JOIN_SUBTYPE : Nat := 1

def DSS_SUBTYPE : Nat := 2

def TCPOLEN_MP_CAPABLE_SYN : Nat := 12

def TCPOLEN_MP_CAPABLE : Nat := 20

def TCPOLEN_MP_JOIN_SYN : Nat := 12

def TCPOLEN_MP_JOIN_SYN_ACK : Nat := 16

def TCPOLEN_MP_JOIN_ACK : Nat := 24

def TCPOLEN_DSS_DSN8 : Nat := 20

def TCPOLEN_DSS_DSN8_WOCS : Nat := 18

/-- The `STATUS_OK` / `STATUS_ERR` return convention of the source. -/
inductive Status where
  | ok
  | err
deriving DecidableEq, Repr

/-- C truthiness combination `a || b` of two status codes (used on line 437 of
the source: `error = mptcp_set_mp_cap_syn_key(...) || error`). -/
def Status.orElse2 : Status → Status → Status
  | .ok, .ok => .ok
  | _, _ => .err

/-- Packet direction, `DIRECTION_INBOUND` (tool → kernel) or
`DIRECTION_OUTBOUND` (kernel → tool). -/
inductive Direction where
  | inbound
  | outbound
deriving DecidableEq, Repr

/-! ## Data model: packets and options -/

/-- The fields of `struct tcp` read by the engine.  Ports are stored as the
16-bit values found in the header in wire (network) order, exactly as in the C
struct; every use in the source goes through `ntohs`. -/
structure TcpHdr where
  src_port : Nat := 0
  dst_port : Nat := 0
  syn : Bool := false
  ack : Bool := false
  doff : Nat := 5
deriving DecidableEq, Repr

/-- The fields of the IPv4 header read by the engine (`ihl` is the header
length in 32-bit words, a 4-bit field). -/
structure Ipv4Hdr where
  src_ip : Nat := 0
  dst_ip : Nat := 0
  ihl : Nat := 5
deriving DecidableEq, Repr

/-- The fields of the IPv6 header read by the engine. -/
structure Ipv6Hdr where
  src_ip : Nat := 0
  dst_ip : Nat := 0
deriving DecidableEq, Repr

/-- One `struct tcp_option` as the engine sees it.  The C `data` union is
flattened into one field per union member the source reads or writes; each
field holds the integer value as stored in the option's memory (so a field
written through `htonl`/`htobe64` holds the byte-swapped value).  The 20-byte
MP_JOIN ACK HMAC is kept as its byte image. -/
structure TcpOption where
  kind : Nat := TCPOPT_MPTCP
  length : Nat := 0
  subtype : Nat := 0
  mpcap_syn_key : Nat := 0
  mpcap_sender_key : Nat := 0
  mpcap_receiver_key : Nat := 0
  join_address_id : Nat := 0
  join_receiver_token : Nat := 0
  join_sender_random_number : Nat := 0
  join_synack_sender_random_number : Nat := 0
  join_synack_sender_hmac : Nat := 0
  join_ack_sender_hmac : List Nat := []
  dss_flag_dsn : Bool := false
  dss_flag_dack : Bool := false
  dss_dsn : Nat := 0
  dss_dll : Nat := 0
  dss_ssn : Nat := 0
  dss_checksum : Nat := 0
  dss_dack : Nat := 0
deriving DecidableEq, Repr

/-- One `struct packet` as the engine sees it.  `tcp_segment_words` is the raw
16-bit-word image of the TCP segment, consumed only by the external `checksum`
primitive (the byte image of the segment is not otherwise modelled; no claim
examined here depends on the checksum value). -/
structure Packet where
  ipv4 : Option Ipv4Hdr := none
  ipv6 : Option Ipv6Hdr := none
  tcp : TcpHdr := {}
  ip_bytes : Nat := 0
  options : List TcpOption := []
  tcp_segment_words : List Nat := []
deriving DecidableEq, Repr

/-- `get_tcp_option(packet, kind)`: the first TCP option of the given kind. -/
def get_tcp_option (pkt : Packet) (kind : Nat) : Option TcpOption :=
  pkt.options.find? (fun o => o.kind == kind)

/-! ## Data model: engine state -/

/-- A variable's value: either an owned 64-bit script-defined buffer or a
borrowed pointer into one of the session's key slots (`&mp_state.packetdrill_key`
or `&mp_state.kernel_key`), dereferenced through the current state. -/
inductive VarValue where
  | owned (v : Nat)
  | pdKeyRef
  | kernelKeyRef
deriving DecidableEq, Repr

/-- One `struct mp_var` entry of the variables hashmap. -/
structure MpVar where
  name : String
  value : VarValue
  subtype : Nat := MP_CAPABLE_SUBTYPE
  script_defined : Bool := false
deriving DecidableEq, Repr

/-- One `struct mp_subflow`.  The C code leaves the fields it does not
initialise (e.g. `kernel_rand_nbr` after `new_subflow_inbound`) as
indeterminate malloc memory; the model uses 0 for those, and no examined claim
depends on a field before the engine assigns it. -/
structure MpSubflow where
  src_ip : Nat := 0
  dst_ip : Nat := 0
  src_port : Nat := 0
  dst_port : Nat := 0
  packetdrill_rand_nbr : Nat := 0
  kernel_rand_nbr : Nat := 0
  packetdrill_addr_id : Nat := 0
  kernel_addr_id : Nat := 0
  subflow_sequence_number : Nat := 0
deriving DecidableEq, Repr

/-- The global `mp_state`.  In C it has static storage, so every field starts
zero; `rng` models the stream of values the process-wide random generator will
produce (`rand_64` / `generate_32` take the next entry). -/
structure MpState where
  packetdrill_key : Nat := 0
  packetdrill_key_set : Bool := false
  kernel_key : Nat := 0
  kernel_key_set : Bool := false
  initial_dsn : Nat := 0
  initial_dack : Nat := 0
  last_packetdrill_addr_id : Nat := 0
  vars_queue : List String := []
  vars : List MpVar := []
  subflows : List MpSubflow := []
  rng : List Nat := []
deriving DecidableEq, Repr

/-- `init_mp_state()` on the zero-initialised global, with a given random
stream. -/
def init_mp_state (rng : List Nat) : MpState := { rng := rng }

/-- `set_packetdrill_key(sender_key)` (u64 store). -/
def set_packetdrill_key (k : Nat) (s : MpState) : MpState :=
  { s with packetdrill_key := k % 2 ^ 64, packetdrill_key_set := true }

/-- `set_kernel_key(receiver_key)` (u64 store). -/
def set_kernel_key (k : Nat) (s : MpState) : MpState :=
  { s with kernel_key := k % 2 ^ 64, kernel_key_set := true }

/-- `rand_64()`: draw the next 64-bit value from the generator stream. -/
def rand_64 (s : MpState) : Nat × MpState :=
  (s.rng.headD 0 % 2 ^ 64, { s with rng := s.rng.tail })

/-- `generate_32()`: draw the next 32-bit value from the generator stream. -/
def generate_32 (s : MpState) : Nat × MpState :=
  (s.rng.headD 0 % 2 ^ 32, { s with rng := s.rng.tail })

/-- Dereference a variable's value pointer in the current state
(`*(u64*)var->value`). -/
def var_deref (s : MpState) : VarValue → Nat
  | .owned v => v % 2 ^ 64
  | .pdKeyRef => s.packetdrill_key
  | .kernelKeyRef => s.kernel_key

/-- `add_mp_var(var)`: insert into the hashmap.  A freshly added entry with a
duplicate name shadows the older one on lookup (uthash puts new items at the
head of the bucket chain), so insertion is modelled as consing. -/
def add_mp_var (var : MpVar) (s : MpState) : MpState :=
  { s with vars := var :: s.vars }

/-- `add_mp_var_key(name, key)`: bind `name` to a borrowed reference to a
session key slot (`owning = false`, engine-generated). -/
def add_mp_var_key (name : String) (ref : VarValue) (s : MpState) : MpState :=
  add_mp_var { name := name, value := ref, script_defined := false } s

/-- `add_mp_var_script_defined(name, value, length)`: bind `name` to an owned
copy of a script-supplied 64-bit value. -/
def add_mp_var_script_defined (name : String) (v : Nat) (s : MpState) : MpState :=
  add_mp_var { name := name, value := .owned v, script_defined := true } s

/-- `find_mp_var(name)`: hashmap lookup. -/
def find_mp_var (s : MpState) (name : String) : Option MpVar :=
  s.vars.find? (fun v => v.name == name)

/-- `enqueue_var(name)` at the engine level: FIFO push of the name awaiting
resolution.  (The byte-level copy bug of `enqueue_var` is modelled separately
below; the engine-level model carries the intended name.) -/
def queue_enqueue_var (name : String) (s : MpState) : MpState :=
  { s with vars_queue := s.vars_queue ++ [name] }

/-- `find_next_key()`: dequeue the front name, look it up, require the
MP_CAPABLE subtype and return the variable's value pointer. -/
def find_next_key (s : MpState) : Option VarValue × MpState :=
  match s.vars_queue with
  | [] => (none, s)
  | n :: rest =>
    let s1 := { s with vars_queue := rest }
    match find_mp_var s n with
    | none => (none, s1)
    | some v => if v.subtype = MP_CAPABLE_SUBTYPE then (some v.value, s1) else (none, s1)

/-! ## Subflow table -/

/-- `new_subflow_inbound(inbound_packet)`: create a subflow from an inbound
packet (tool perspective: source = tool).  Returns `none` exactly when the
packet is neither IPv4 nor IPv6 (the C function returns NULL there, before any
state mutation). -/
def new_subflow_inbound (pkt : Packet) (s : MpState) : Option (MpSubflow × MpState) :=
  let ips : Option (Nat × Nat) :=
    match pkt.ipv4 with
    | some h4 => some (h4.src_ip, h4.dst_ip)
    | none =>
      match pkt.ipv6 with
      | some h6 => some (h6.src_ip, h6.dst_ip)
      | none => none
  match ips with
  | none => none
  | some (sip, dip) =>
    let s1 := (generate_32 s).2
    let sf : MpSubflow :=
      { src_ip := sip, dst_ip := dip,
        src_port := c_ntohs pkt.tcp.src_port, dst_port := c_ntohs pkt.tcp.dst_port,
        packetdrill_rand_nbr := (generate_32 s).1,
        packetdrill_addr_id := s1.last_packetdrill_addr_id % 256,
        subflow_sequence_number := 0 }
    some (sf, { s1 with
      last_packetdrill_addr_id := (s1.last_packetdrill_addr_id + 1) % 256,
      subflows := sf :: s1.subflows })

/-- `new_subflow_outbound(outbound_packet)`: create a subflow from a live
packet sent by the kernel (ports swapped into the tool perspective; nonce and
address id absorbed from the MP_JOIN SYN option).  Returns `none` when the
packet has no MPTCP option or no IP header. -/
def new_subflow_outbound (pkt : Packet) (s : MpState) : Option (MpSubflow × MpState) :=
  match get_tcp_option pkt TCPOPT_MPTCP with
  | none => none
  | some mp_join_syn =>
    let ips : Option (Nat × Nat) :=
      match pkt.ipv4 with
      | some h4 => some (h4.dst_ip, h4.src_ip)
      | none =>
        match pkt.ipv6 with
        | some h6 => some (h6.dst_ip, h6.src_ip)
        | none => none
    match ips with
    | none => none
    | some (sip, dip) =>
      let sf : MpSubflow :=
        { src_ip := sip, dst_ip := dip,
          src_port := c_ntohs pkt.tcp.dst_port, dst_port := c_ntohs pkt.tcp.src_port,
          kernel_rand_nbr := mp_join_syn.join_sender_random_number % 2 ^ 32,
          kernel_addr_id := mp_join_syn.join_address_id % 256,
          subflow_sequence_number := 0 }
      some (sf, { s with subflows := sf :: s.subflows })

/-- Match predicate of `does_subflow_match_inbound_packet`. -/
def subflow_match_inbound (pkt : Packet) (sf : MpSubflow) : Bool :=
  sf.dst_port == c_ntohs pkt.tcp.dst_port && sf.src_port == c_ntohs pkt.tcp.src_port

/-- Match predicate of `does_subflow_match_outbound_packet` (ports swapped:
the live packet's perspective is the kernel's). -/
def subflow_match_outbound (pkt : Packet) (sf : MpSubflow) : Bool :=
  sf.dst_port == c_ntohs pkt.tcp.src_port && sf.src_port == c_ntohs pkt.tcp.dst_port

/-- Index of the first subflow in the list matching the predicate (the C walks
`mp_state.subflows`, newest first).  The index is returned so that in-place
mutation of the found subflow can be modelled with `List.set`. -/
def findSubflowIdx (p : MpSubflow → Bool) : List MpSubflow → Option Nat
  | [] => none
  | sf :: rest =>
    if p sf then some 0
    else (findSubflowIdx p rest).map (· + 1)

/-- `find_subflow_matching_inbound_packet(packet)`, returning the index into
the state's subflow list (`none` = NULL). -/
def find_subflow_matching_inbound_packet (s : MpState) (pkt : Packet) : Option Nat :=
  findSubflowIdx (subflow_match_inbound pkt) s.subflows

/-- `find_subflow_matching_outbound_packet(packet)`, returning the index into
the state's subflow list (`none` = NULL). -/
def find_subflow_matching_outbound_packet (s : MpState) (pkt : Packet) : Option Nat :=
  findSubflowIdx (subflow_match_outbound pkt) s.subflows

/-- C truthiness `a || b` on status codes (line 437 of the source combines two
error codes this way). -/
def statusOr (a b : Status) : Status :=
  match a, b with
  | .ok, .ok => .ok
  | _, _ => .err

/-! ## Key-handling operations -/

/-- `mptcp_gen_key()`: peek the front pending variable name; a script-defined
MP_CAPABLE binding for it overwrites the packetdrill key; otherwise, if the key
is still unset, draw a random 64-bit key, set it, and bind the name to the
session's `packetdrill_key` slot. -/
def mptcp_gen_key (s : MpState) : Status × MpState :=
  match s.vars_queue.head? with
  | none => (.err, s)
  | some n =>
    let s1 :=
      match find_mp_var s n with
      | some v =>
        if v.subtype = MP_CAPABLE_SUBTYPE ∧ v.script_defined = true then
          set_packetdrill_key (var_deref s v.value) s
        else s
      | none => s
    if s1.packetdrill_key_set then (.ok, s1)
    else
      (.ok, add_mp_var_key n .pdKeyRef (set_packetdrill_key (rand_64 s1).1 (rand_64 s1).2))

/-- `mptcp_set_mp_cap_syn_key(tcp_opt)`: drain the next key and write it into
the MP_CAPABLE SYN option. -/
def mptcp_set_mp_cap_syn_key (opt : TcpOption) (s : MpState) :
    Status × MpState × TcpOption :=
  match (find_next_key s).1, (find_next_key s).2 with
  | none, s1 => (.err, s1, opt)
  | some v, s1 => (.ok, s1, { opt with mpcap_syn_key := var_deref s1 v })

/-- `mptcp_set_mp_cap_keys(tcp_opt)`: drain the next two keys and write them as
sender and receiver keys of the third-ACK MP_CAPABLE option. -/
def mptcp_set_mp_cap_keys (opt : TcpOption) (s : MpState) :
    Status × MpState × TcpOption :=
  match (find_next_key s).1, (find_next_key s).2 with
  | none, s1 => (.err, s1, opt)
  | some v, s1 =>
    let opt1 := { opt with mpcap_sender_key := var_deref s1 v }
    match (find_next_key s1).1, (find_next_key s1).2 with
    | none, s2 => (.err, s2, opt1)
    | some w, s2 => (.ok, s2, { opt1 with mpcap_receiver_key := var_deref s2 w })

/-- `extract_and_set_kernel_key(live_packet)`: a script-defined binding for the
front pending name wins; otherwise, if the kernel key is unset, adopt the key
from the live MP_CAPABLE option and bind the front name to the session's
`kernel_key` slot (error if the queue is empty at that point). -/
def extract_and_set_kernel_key (live : Packet) (s : MpState) : Status × MpState :=
  match get_tcp_option live TCPOPT_MPTCP with
  | none => (.err, s)
  | some mpcap =>
    let s1 :=
      match s.vars_queue.head? with
      | some n =>
        match find_mp_var s n with
        | some v =>
          if v.subtype = MP_CAPABLE_SUBTYPE ∧ v.script_defined = true then
            set_kernel_key (var_deref s v.value) s
          else s
        | none => s
      | none => s
    if s1.kernel_key_set then (.ok, s1)
    else
      let s2 := set_kernel_key mpcap.mpcap_syn_key s1
      match s2.vars_queue.head? with
      | none => (.err, s2)
      | some n => (.ok, add_mp_var_key n .kernelKeyRef s2)

/-! ## MP_CAPABLE handler -/

/-- `mptcp_subtype_mp_capable(...)`.  The four dispatch branches in source
order.  In the third branch the C assigns `initial_dsn` and creates a subflow
even when `mptcp_set_mp_cap_keys` failed, and ignores a NULL result of the
subflow creation (no dereference happens there).  A direction value outside
{INBOUND, OUTBOUND} is unrepresentable in the model, so the C's corresponding
`STATUS_ERR` arm is not modelled. -/
def mptcp_subtype_mp_capable (pkt live : Packet) (opt : TcpOption)
    (dir : Direction) (s : MpState) : Status × MpState × TcpOption :=
  if opt.length = TCPOLEN_MP_CAPABLE_SYN ∧ pkt.tcp.syn = true ∧
      dir = .inbound ∧ pkt.tcp.ack = false then
    let r1 := mptcp_gen_key s
    let r2 := mptcp_set_mp_cap_syn_key opt r1.2
    (statusOr r2.1 r1.1, r2.2.1, r2.2.2)
  else if opt.length = TCPOLEN_MP_CAPABLE_SYN ∧ pkt.tcp.syn = true ∧
      dir = .outbound then
    let r1 := extract_and_set_kernel_key live s
    let r2 := mptcp_set_mp_cap_syn_key opt r1.2
    (r2.1, r2.2.1, r2.2.2)
  else if opt.length = TCPOLEN_MP_CAPABLE ∧ pkt.tcp.syn = false ∧
      pkt.tcp.ack = true then
    let r1 := mptcp_set_mp_cap_keys opt s
    let s2 := { r1.2.1 with initial_dsn := sha1_least_64bits r1.2.1.packetdrill_key }
    let s3 :=
      match dir with
      | .inbound => ((new_subflow_inbound pkt s2).map (fun r => r.2)).getD s2
      | .outbound => ((new_subflow_outbound pkt s2).map (fun r => r.2)).getD s2
    (r1.1, s3, r1.2.2)
  else if opt.length = TCPOLEN_MP_CAPABLE_SYN ∧ pkt.tcp.syn = true ∧
      dir = .inbound ∧ pkt.tcp.ack = true then
    let r1 := mptcp_gen_key s
    let r2 := mptcp_set_mp_cap_syn_key opt r1.2
    (statusOr r2.1 r1.1, r2.2.1, r2.2.2)
  else (.err, s, opt)

/-! ## HMAC buffer construction

The C builds the 16-byte HMAC key with two 8-byte `unsigned long` stores and
the 8-byte message with two 4-byte `unsigned` stores into stack buffers; on the
modelled little-endian LP64 host each store lays down the value's bytes in
little-endian order.  `0xAB` marks the indeterminate initial contents of the
stack buffers (every byte is overwritten before use). -/

/-- `memcpy`-style splice of `bytes` into `buf` at offset `off`. -/
def memWriteBytes (buf : List Nat) (off : Nat) (bytes : List Nat) : List Nat :=
  buf.take off ++ bytes ++ buf.drop (off + bytes.length)

/-- The 16-byte HMAC-SHA1 key buffer: `first` stored at bytes 0–7, `second` at
bytes 8–15. -/
def hmacKeyBuf (first second : Nat) : List Nat :=
  memWriteBytes (memWriteBytes (List.replicate 16 0xAB) 0 (bytesLE 8 first)) 8
    (bytesLE 8 second)

/-- The 8-byte HMAC-SHA1 message buffer: `first` stored at bytes 0–3, `second`
at bytes 4–7. -/
def hmacMsgBuf (first second : Nat) : List Nat :=
  memWriteBytes (memWriteBytes (List.replicate 8 0xAB) 0 (bytesLE 4 first)) 4
    (bytesLE 4 second)

/-! ## MP_JOIN handler -/

/-- `mptcp_subtype_mp_join(...)`.  The six dispatch branches in source order.
`none` models the NULL-pointer dereference in the fourth branch, which — unlike
every other branch — does not guard the result of `new_subflow_outbound`. -/
def mptcp_subtype_mp_join (pkt live : Packet) (opt : TcpOption)
    (dir : Direction) (s : MpState) : Option (Status × MpState × TcpOption) :=
  if dir = .inbound ∧ pkt.tcp.ack = false ∧ pkt.tcp.syn = true ∧
      opt.length = TCPOLEN_MP_JOIN_SYN then
    match new_subflow_inbound pkt s with
    | none => some (.err, s, opt)
    | some (sf, s1) =>
      some (.ok, s1, { opt with
        join_receiver_token := c_htonl (sha1_least_32bits s1.kernel_key),
        join_sender_random_number := sf.packetdrill_rand_nbr % 2 ^ 32,
        join_address_id := sf.packetdrill_addr_id % 256 })
  else if dir = .outbound ∧ pkt.tcp.ack = true ∧ pkt.tcp.syn = true ∧
      opt.length = TCPOLEN_MP_JOIN_SYN_ACK then
    match find_subflow_matching_outbound_packet s live,
        get_tcp_option live TCPOPT_MPTCP with
    | some i, some lj =>
      let sf0 := s.subflows.getD i {}
      let sf1 := { sf0 with
        kernel_addr_id := lj.join_address_id % 256,
        kernel_rand_nbr := lj.join_synack_sender_random_number % 2 ^ 32 }
      let s1 := { s with subflows := s.subflows.set i sf1 }
      some (.ok, s1, { opt with
        join_address_id := lj.join_address_id % 256,
        join_synack_sender_random_number := lj.join_synack_sender_random_number % 2 ^ 32,
        join_synack_sender_hmac :=
          hmac_sha1_truncat_64 (hmacKeyBuf s1.kernel_key s1.packetdrill_key)
            (hmacMsgBuf sf1.kernel_rand_nbr sf1.packetdrill_rand_nbr) })
    | _, _ => some (.err, s, opt)
  else if dir = .inbound ∧ pkt.tcp.ack = true ∧ pkt.tcp.syn = false ∧
      opt.length = TCPOLEN_MP_JOIN_ACK then
    match find_subflow_matching_inbound_packet s pkt with
    | none => some (.err, s, opt)
    | some i =>
      let sf := s.subflows.getD i {}
      some (.ok, s, { opt with
        join_ack_sender_hmac :=
          hmac_sha1 (hmacKeyBuf s.packetdrill_key s.kernel_key)
            (hmacMsgBuf sf.packetdrill_rand_nbr sf.kernel_rand_nbr) })
  else if dir = .outbound ∧ pkt.tcp.ack = false ∧ pkt.tcp.syn = true ∧
      opt.length = TCPOLEN_MP_JOIN_SYN then
    match new_subflow_outbound live s with
    | none => none
    | some (sf, s1) =>
      some (.ok, s1, { opt with
        join_address_id := sf.kernel_addr_id % 256,
        join_sender_random_number := c_htonl sf.kernel_rand_nbr,
        join_receiver_token := c_htonl (sha1_least_32bits s1.kernel_key) })
  else if dir = .inbound ∧ pkt.tcp.ack = true ∧ pkt.tcp.syn = true ∧
      opt.length = TCPOLEN_MP_JOIN_SYN_ACK then
    match find_subflow_matching_inbound_packet s pkt with
    | none => some (.err, s, opt)
    | some i =>
      let s1 := (generate_32 s).2
      let sf0 := s1.subflows.getD i {}
      let sf1 := { sf0 with packetdrill_rand_nbr := (generate_32 s).1 }
      let s2 := { s1 with subflows := s1.subflows.set i sf1 }
      let s3 := { s2 with
        last_packetdrill_addr_id := (s2.last_packetdrill_addr_id + 1) % 256 }
      some (.ok, s3, { opt with
        join_address_id := s2.last_packetdrill_addr_id % 256,
        join_synack_sender_random_number := c_htonl sf1.packetdrill_rand_nbr,
        join_synack_sender_hmac :=
          c_htobe64 (hmac_sha1_truncat_64
            (hmacKeyBuf s2.packetdrill_key s2.kernel_key)
            (hmacMsgBuf sf1.packetdrill_rand_nbr sf1.kernel_rand_nbr)) })
  else if dir = .outbound ∧ pkt.tcp.ack = true ∧ pkt.tcp.syn = false ∧
      opt.length = TCPOLEN_MP_JOIN_ACK then
    match find_subflow_matching_outbound_packet s pkt with
    | none => some (.err, s, opt)
    | some i =>
      let sf := s.subflows.getD i {}
      some (.ok, s, { opt with
        join_ack_sender_hmac :=
          hmac_sha1 (hmacKeyBuf s.kernel_key s.packetdrill_key)
            (hmacMsgBuf sf.kernel_rand_nbr sf.packetdrill_rand_nbr) })
  else some (.err, s, opt)

/-! ## DSS handler -/

/-- Modelled from the spec: the external ones'-complement `checksum` primitive
(it lives outside the analysed file); 16-bit ones'-complement sum with
end-around carry, complemented.  No examined claim depends on its value. -/
def c_checksum (ws : List Nat) : Nat :=
  let t := ws.foldl (fun a w => a + w % 2 ^ 16) 0
  let t1 := t % 2 ^ 16 + t / 2 ^ 16
  let t2 := t1 % 2 ^ 16 + t1 / 2 ^ 16
  2 ^ 16 - 1 - t2 % 2 ^ 16

/-- Read a byte buffer as the 16-bit words a little-endian host sees. -/
def wordsLE16 (bytes : List Nat) : List Nat :=
  (List.range (bytes.length / 2)).map
    (fun i => bytes.getD (2 * i) 0 % 256 + 256 * (bytes.getD (2 * i + 1) 0 % 256))

/-- The payload-length computation of both inbound DSS branches:
`packet_total_length - ip_header_length - (tcp_header_length - 20)` in C `u16`
variables, with `tcp_header_length = doff*4` and — as written in the source —
`ip_header_length = ihl*8`. -/
def dss_payload_len (pkt : Packet) (h4 : Ipv4Hdr) : Nat :=
  u16ofInt (((pkt.ip_bytes % 2 ^ 16 : Nat) : Int) -
    ((8 * (h4.ihl % 16) : Nat) : Int) -
    (((4 * (pkt.tcp.doff % 16) : Nat) : Int) - 20))

/-- The memory image of the `buffer_checksum` struct `{u64 dsn; u32 ssn;
u16 dll; u16 zeros}` on the little-endian host. -/
def dssChecksumBuf (opt : TcpOption) : List Nat :=
  bytesLE 8 opt.dss_dsn ++ bytesLE 4 opt.dss_ssn ++ bytesLE 2 opt.dss_dll ++ [0, 0]

/-- `mptcp_subtype_dss(...)`.  Only the inbound direction does anything.  Both
DSN-carrying variants dereference `packet_to_modify->ipv4` and the result of
`find_subflow_matching_inbound_packet` without a guard; `none` models those
NULL dereferences.  The DACK rewrite runs after the DSN branch chain. -/
def mptcp_subtype_dss (pkt _live : Packet) (opt : TcpOption)
    (dir : Direction) (s : MpState) : Option (Status × MpState × TcpOption) :=
  match dir with
  | .outbound => some (.ok, s, opt)
  | .inbound =>
    let dsnPart : Option (MpState × TcpOption) :=
      if opt.dss_flag_dsn = true ∧ opt.length = TCPOLEN_DSS_DSN8 then
        match pkt.ipv4 with
        | none => none
        | some h4 =>
          let plen := dss_payload_len pkt h4
          let opt1 := { opt with dss_dsn := c_htobe64 (s.initial_dsn + opt.dss_dsn) }
          let opt2 := { opt1 with dss_dll := c_htons plen }
          match find_subflow_matching_inbound_packet s pkt with
          | none => none
          | some i =>
            let sf := s.subflows.getD i {}
            let opt3 := { opt2 with dss_ssn := c_htonl sf.subflow_sequence_number }
            let sfA := { sf with subflow_sequence_number :=
              (sf.subflow_sequence_number + plen) % 2 ^ 32 }
            let s1 := { s with subflows := s.subflows.set i sfA }
            let opt4 := { opt3 with dss_checksum := 0 }
            let opt5 := { opt4 with dss_checksum :=
              (c_checksum pkt.tcp_segment_words +
               c_checksum (wordsLE16 (dssChecksumBuf opt4))) % 2 ^ 16 }
            some (s1, opt5)
      else if opt.dss_flag_dsn = true ∧ opt.length = TCPOLEN_DSS_DSN8_WOCS then
        match pkt.ipv4 with
        | none => none
        | some h4 =>
          let plen := dss_payload_len pkt h4
          let opt1 := { opt with dss_dsn := c_htobe64 (s.initial_dsn + opt.dss_dsn + 1) }
          let opt2 := { opt1 with dss_dll := c_htons plen }
          match find_subflow_matching_inbound_packet s pkt with
          | none => none
          | some i =>
            let sf := s.subflows.getD i {}
            let opt3 := { opt2 with dss_ssn := c_htonl sf.subflow_sequence_number }
            let sfA := { sf with subflow_sequence_number :=
              (sf.subflow_sequence_number + plen) % 2 ^ 32 }
            let s1 := { s with subflows := s.subflows.set i sfA }
            some (s1, opt3)
      else some (s, opt)
    match dsnPart with
    | none => none
    | some (s1, o1) =>
      if o1.dss_flag_dack = true then
        some (.ok, s1, { o1 with dss_dack := c_htobe64 (s1.initial_dack + o1.dss_dack) })
      else some (.ok, s1, o1)

/-! ## Per-packet entry point -/

/-- The option loop of `mptcp_insert_and_extract_opt_fields`: dispatch each
MPTCP option on its subtype; the first failing subroutine aborts the packet
with `STATUS_ERR`. -/
def process_tcp_options (pkt live : Packet) (dir : Direction) :
    List TcpOption → MpState → Option (Status × MpState × List TcpOption)
  | [], s => some (.ok, s, [])
  | opt :: rest, s =>
    if opt.kind = TCPOPT_MPTCP then
      let step : Option (Status × MpState × TcpOption) :=
        if opt.subtype = MP_CAPABLE_SUBTYPE then
          some (mptcp_subtype_mp_capable pkt live opt dir s)
        else if opt.subtype = MP_JOIN_SUBTYPE then
          mptcp_subtype_mp_join pkt live opt dir s
        else if opt.subtype = DSS_SUBTYPE then
          mptcp_subtype_dss pkt live opt dir s
        else some (.err, s, opt)
      match step with
      | none => none
      | some (.err, s1, o1) => some (.err, s1, o1 :: rest)
      | some (.ok, s1, o1) =>
        match process_tcp_options pkt live dir rest s1 with
        | none => none
        | some (st, s2, rest1) => some (st, s2, o1 :: rest1)
    else
      match process_tcp_options pkt live dir rest s with
      | none => none
      | some (st, s1, rest1) => some (st, s1, opt :: rest1)

/-- `mptcp_insert_and_extract_opt_fields(packet_to_modify, live_packet,
direction)`: the per-packet entry point. -/
def mptcp_insert_and_extract_opt_fields (pkt live : Packet) (dir : Direction)
    (s : MpState) : Option (Status × MpState × Packet) :=
  (process_tcp_options pkt live dir pkt.options s).map
    (fun r => (r.1, r.2.1, { pkt with options := r.2.2 }))

/-! ## Byte-level model of the pending-variable queue (for the copy semantics
of `enqueue_var`)

Names are byte lists (the string's characters, NUL-free); an allocated buffer
is a byte list of exactly the malloc'd size; `0xAB` marks indeterminate malloc
contents. -/

/-- `memcpy(dst, src, n)` where `dst` is an allocated buffer. -/
def memcpyBytes (dst src : List Nat) (n : Nat) : List Nat :=
  src.take n ++ dst.drop n

/-- A malloc'd buffer of `n` bytes with indeterminate contents. -/
def mallocBytes (n : Nat) : List Nat := List.replicate n 0xAB

/-- The buffer `enqueue_var(name)` stores on the queue:
`malloc(sizeof(char)*name_length)` followed by `memcpy(new_el, name,
name_length)` — `name_length = strlen(name)` bytes, without the terminating
NUL. -/
def enqueue_var_copy (name : List Nat) : List Nat :=
  memcpyBytes (mallocBytes name.length) name name.length

/-- The buffer `save_mp_var_name(name, var)` stores for the hashmap:
`malloc(name_length+1)` and a copy of `name_length+1` bytes (the source
comments "+1 to copy '/0' too"). -/
def save_mp_var_name_copy (name : List Nat) : List Nat :=
  memcpyBytes (mallocBytes (name.length + 1)) (name ++ [0]) (name.length + 1)

/-- `enqueue_var` at the byte level: push the copy onto the FIFO. -/
def enqueue_var (q : List (List Nat)) (name : List Nat) : List (List Nat) :=
  q ++ [enqueue_var_copy name]

/-- `dequeue_var` at the byte level: pop the front buffer (ownership moves to
the caller); error (`none`) on an empty queue. -/
def dequeue_var : List (List Nat) → Option (List Nat × List (List Nat))
  | [] => none
  | b :: rest => some (b, rest)

/-- Reading a C string out of an allocated buffer: the bytes before the first
NUL; `none` if the buffer holds no NUL at all, in which case `strlen` (and any
string-keyed lookup) reads past the end of the allocation — undefined
behaviour. -/
def readCString (buf : List Nat) : Option (List Nat) :=
  if 0 ∈ buf then some (buf.takeWhile (fun b => b ≠ 0)) else none

/-! ## Concrete instances used by witnesses and counterexamples -/

/-- A session state after a complete MP_CAPABLE handshake: both keys known. -/
def exJoinState : MpState :=
  { packetdrill_key := 0x1122334455667788, packetdrill_key_set := true,
    kernel_key := 0xAABBCCDDEEFF0011, kernel_key_set := true,
    rng := [0xDEAD1234] }

/-- An inbound MP_JOIN SYN script packet. -/
def exJoinSynPkt : Packet :=
  { ipv4 := some { src_ip := 1, dst_ip := 2 },
    tcp := { src_port := 0xABCD, dst_port := 0x1234, syn := true, ack := false } }

/-- Its MP_JOIN SYN option. -/
def exJoinSynOpt : TcpOption :=
  { length := TCPOLEN_MP_JOIN_SYN, subtype := MP_JOIN_SUBTYPE }

/-- A subflow whose tool-perspective ports match `exDssPkt` (host-order values
of the wire ports 0xABCD / 0x1234). -/
def exSf : MpSubflow :=
  { src_port := 0xCDAB, dst_port := 0x3412,
    packetdrill_rand_nbr := 0x11223344, kernel_rand_nbr := 0x55667788,
    subflow_sequence_number := 0 }

/-- An inbound data packet: 20-byte IPv4 header (`ihl = 5`), 32-byte TCP header
(`doff = 8`), 60 bytes total, so an 8-byte TCP payload. -/
def exDssPkt : Packet :=
  { ipv4 := some { ihl := 5 },
    tcp := { src_port := 0xABCD, dst_port := 0x1234, syn := false, ack := true,
             doff := 8 },
    ip_bytes := 60 }

/-- A DSS option with DSN and checksum (script value 1000). -/
def exDssOptCs : TcpOption :=
  { length := TCPOLEN_DSS_DSN8, subtype := DSS_SUBTYPE,
    dss_flag_dsn := true, dss_dsn := 1000 }

/-- A DSS option with DSN, without checksum (script value 1000). -/
def exDssOptWo : TcpOption :=
  { length := TCPOLEN_DSS_DSN8_WOCS, subtype := DSS_SUBTYPE,
    dss_flag_dsn := true, dss_dsn := 1000 }

/-- A session state holding the matching subflow. -/
def exDssState : MpState :=
  { initial_dsn := 77, subflows := [exSf] }

/-- State for the key-immutability trace: names "a" and "b" pending, "b" bound
to the script-defined value 2, one random value 5 in the generator. -/
def c7_s0 : MpState :=
  { vars_queue := ["a", "b"],
    vars := [{ name := "b", value := .owned 2, script_defined := true }],
    rng := [5] }

/-- After the first `mptcp_gen_key`: the key 5 is drawn and set. -/
def c7_s1 : MpState := (mptcp_gen_key c7_s0).2

/-- After draining "a" for a SYN option (as the first MP_CAPABLE packet does). -/
def c7_s2 : MpState := (mptcp_set_mp_cap_syn_key {} c7_s1).2.1

/-- After a second `mptcp_gen_key`, now with script-defined "b" in front. -/
def c7_s3 : MpState := (mptcp_gen_key c7_s2).2

/-- State for the error-masking trace: the front name resolves to a key, so
`mptcp_set_mp_cap_syn_key` succeeds. -/
def c8_state : MpState :=
  { vars_queue := ["a"],
    vars := [{ name := "a", value := .pdKeyRef, script_defined := false }],
    packetdrill_key := 7, packetdrill_key_set := true }

/-- An outbound MP_CAPABLE SYN script packet. -/
def c8_pkt : Packet :=
  { tcp := { syn := true, ack := false },
    options := [{ subtype := MP_CAPABLE_SUBTYPE, length := TCPOLEN_MP_CAPABLE_SYN }] }

/-- The corresponding live packet carrying no MPTCP option at all, so
`extract_and_set_kernel_key` fails. -/
def c8_live : Packet := { tcp := { syn := true, ack := false } }

/-- Handshake trace, step 0: four pending names, one random value. -/
def c3_s0 : MpState :=
  { vars_queue := ["c", "s", "c", "s"], rng := [0x1122334455667788] }

/-- Handshake packet 1: inbound MP_CAPABLE SYN. -/
def c3_p1 : Packet :=
  { ipv4 := some {}, tcp := { syn := true, ack := false },
    options := [{ subtype := MP_CAPABLE_SUBTYPE, length := TCPOLEN_MP_CAPABLE_SYN }] }

/-- Result of processing handshake packet 1. -/
def c3_r1 : Option (Status × MpState × Packet) :=
  mptcp_insert_and_extract_opt_fields c3_p1 c3_p1 .inbound c3_s0

/-- State after handshake packet 1. -/
def c3_s1 : MpState := (c3_r1.map (fun r => r.2.1)).getD {}

/-- Handshake packet 2: outbound MP_CAPABLE SYN-ACK (script side). -/
def c3_p2 : Packet :=
  { ipv4 := some {}, tcp := { syn := true, ack := true },
    options := [{ subtype := MP_CAPABLE_SUBTYPE, length := TCPOLEN_MP_CAPABLE_SYN }] }

/-- Handshake packet 2 as sniffed live from the kernel, carrying the kernel
key. -/
def c3_live2 : Packet :=
  { ipv4 := some {}, tcp := { syn := true, ack := true },
    options := [{ subtype := MP_CAPABLE_SUBTYPE, length := TCPOLEN_MP_CAPABLE_SYN,
                  mpcap_syn_key := 0xAABBCCDDEEFF0011 }] }

/-- Result of processing handshake packet 2. -/
def c3_r2 : Option (Status × MpState × Packet) :=
  mptcp_insert_and_extract_opt_fields c3_p2 c3_live2 .outbound c3_s1

/-- State after handshake packet 2. -/
def c3_s2 : MpState := (c3_r2.map (fun r => r.2.1)).getD {}

/-- Handshake packet 3: inbound MP_CAPABLE third ACK (both keys echoed). -/
def c3_p3 : Packet :=
  { ipv4 := some {}, tcp := { syn := false, ack := true },
    options := [{ subtype := MP_CAPABLE_SUBTYPE, length := TCPOLEN_MP_CAPABLE }] }

/-- Result of processing handshake packet 3 (the final-ACK trigger). -/
def c3_r3 : Option (Status × MpState × Packet) :=
  mptcp_insert_and_extract_opt_fields c3_p3 c3_p3 .inbound c3_s2

/-- State after the complete handshake. -/
def c3_sf : MpState := (c3_r3.map (fun r => r.2.1)).getD {}

/-- A DSS option carrying only a DACK (script value 1234). -/
def c3_dssAckOpt : TcpOption :=
  { subtype := DSS_SUBTYPE, length := 8, dss_flag_dack := true, dss_dack := 1234 }

/-- An inbound packet carrying the DACK-only DSS option. -/
def c3_p4 : Packet := { ipv4 := some {}, tcp := { ack := true } }

/-- Does the front pending variable name currently resolve to a script-defined
MP_CAPABLE binding?  (The condition under which the key-setting operations
overwrite an already-set key.) -/
def front_script_defined (s : MpState) : Bool :=
  match s.vars_queue.head? with
  | none => false
  | some n =>
    match find_mp_var s n with
    | none => false
    | some v => (v.subtype == MP_CAPABLE_SUBTYPE) && v.script_defined

/-- The handshake session state extended with the subflow `exSf`. -/
def exJoinStateWithSf : MpState := { exJoinState with subflows := [exSf] }

/-- An inbound MP_JOIN ACK packet matching `exSf`. -/
def exJoinAckPkt : Packet :=
  { ipv4 := some {},
    tcp := { src_port := 0xABCD, dst_port := 0x1234, syn := false, ack := true } }

/-- Its MP_JOIN ACK option. -/
def exJoinAckOpt : TcpOption :=
  { length := TCPOLEN_MP_JOIN_ACK, subtype := MP_JOIN_SUBTYPE }

/-- An outbound MP_JOIN ACK packet matching `exSf` (ports as the kernel sees
them, i.e. swapped). -/
def exJoinAckOutPkt : Packet :=
  { ipv4 := some {},
    tcp := { src_port := 0x1234, dst_port := 0xABCD, syn := false, ack := true } }

/-- An outbound MP_JOIN SYN script packet (kernel opens a subflow). -/
def exOutJoinSynPkt : Packet :=
  { tcp := { src_port := 0x2222, dst_port := 0x1111, syn := true, ack := false } }

/-- The corresponding live packet from the kernel, carrying the MP_JOIN SYN
option with the kernel's nonce and address id. -/
def exOutJoinLive : Packet :=
  { ipv4 := some {},
    tcp := { src_port := 0x2222, dst_port := 0x1111, syn := true, ack := false },
    options := [{ subtype := MP_JOIN_SUBTYPE, length := TCPOLEN_MP_JOIN_SYN,
                  join_sender_random_number := 0x99887766, join_address_id := 3 }] }

/-- A second DSS option (script value 2000) for the consecutive-packet
scenario. -/
def exDssOptCs2 : TcpOption :=
  { length := TCPOLEN_DSS_DSN8, subtype := DSS_SUBTYPE,
    dss_flag_dsn := true, dss_dsn := 2000 }

/-- The state update both inbound DSS-with-DSN branches perform on the matched
subflow: advance its cumulative sequence number by the computed payload length
(32-bit wrap). -/
def advanceSubflowSeq (s : MpState) (i plen : Nat) : MpState :=
  let sf := s.subflows.getD i {}
  let sfA := { sf with subflow_sequence_number :=
    (sf.subflow_sequence_number + plen) % 2 ^ 32 }
  { s with subflows := s.subflows.set i sfA }

/-- The concrete result of the first DSS step on `exDssState`. -/
def exDssR1 : Status × MpState × TcpOption :=
  (mptcp_subtype_dss exDssPkt exDssPkt exDssOptCs .inbound exDssState).getD
    (.err, {}, {})

/-- The concrete result of creating an inbound subflow from `exJoinSynPkt`. -/
def exNewSubflowRes : MpSubflow × MpState :=
  (new_subflow_inbound exJoinSynPkt exJoinState).getD ({}, {})

/-- The concrete result of creating an outbound subflow from `exOutJoinLive`. -/
def exOutSubflowRes : MpSubflow × MpState :=
  (new_subflow_outbound exOutJoinLive exJoinState).getD ({}, {})

end PacketdrillMptcp

namespace PacketdrillMptcp

/-! ## Sanity anchors for the crypto primitives -/

/-- FIPS 180-4 test vector: SHA-1 of the empty message. -/
theorem sha1_empty_vector :
    sha1 [] =
      [0xda, 0x39, 0xa3, 0xee, 0x5e, 0x6b, 0x4b, 0x0d, 0x32, 0x55,
       0xbf, 0xef, 0x95, 0x60, 0x18, 0x90, 0xaf, 0xd8, 0x07, 0x09] := by decide

/-- RFC 2202 test case 2 for HMAC-SHA1 (key "Jefe", data "what do ya want
for nothing?"). -/
theorem hmac_sha1_rfc2202_vector :
    hmac_sha1
      [0x4a, 0x65, 0x66, 0x65]
      [0x77, 0x68, 0x61, 0x74, 0x20, 0x64, 0x6f, 0x20, 0x79, 0x61, 0x20, 0x77,
       0x61, 0x6e, 0x74, 0x20, 0x66, 0x6f, 0x72, 0x20, 0x6e, 0x6f, 0x74, 0x68,
       0x69, 0x6e, 0x67, 0x3f] =
      [0xef, 0xfc, 0xdf, 0x6a, 0xe5, 0xeb, 0x2f, 0xa2, 0xd2, 0x74,
       0x16, 0xd5, 0xf1, 0x84, 0xdf, 0x9c, 0x25, 0x9a, 0x7c, 0x79] := by decide

/-! ## Helper lemmas -/

/-- The two 8-byte stores into the 16-byte HMAC key buffer produce exactly the
concatenation of the two keys' little-endian serializations. -/
theorem hmacKeyBuf_eq (a b : Nat) : hmacKeyBuf a b = bytesLE 8 a ++ bytesLE 8 b := rfl

/-- The two 4-byte stores into the 8-byte HMAC message buffer produce exactly
the concatenation of the two nonces' little-endian serializations. -/
theorem hmacMsgBuf_eq (a b : Nat) : hmacMsgBuf a b = bytesLE 4 a ++ bytesLE 4 b := rfl

/-- A successful `new_subflow_outbound` only prepends the new subflow. -/
theorem new_subflow_outbound_state (p : Packet) (s : MpState) (sf : MpSubflow)
    (s1 : MpState) (h : new_subflow_outbound p s = some (sf, s1)) :
    s1 = { s with subflows := sf :: s.subflows } := by
  unfold new_subflow_outbound at h
  cases hopt : get_tcp_option p TCPOPT_MPTCP with
  | none => rw [hopt] at h; simp at h
  | some lj =>
    rw [hopt] at h
    cases hip4 : p.ipv4 with
    | some h4 =>
      rw [hip4] at h
      simp only [Option.some.injEq, Prod.mk.injEq] at h
      obtain ⟨hsf, hs1⟩ := h
      subst hsf; subst hs1; rfl
    | none =>
      rw [hip4] at h
      cases hip6 : p.ipv6 with
      | none => rw [hip6] at h; simp at h
      | some h6 =>
        rw [hip6] at h
        simp only [Option.some.injEq, Prod.mk.injEq] at h
        obtain ⟨hsf, hs1⟩ := h
        subst hsf; subst hs1; rfl

/-- A successful `new_subflow_inbound` consumes one random draw, bumps the
address-id counter, and prepends the new subflow, whose cumulative sequence
number starts at 0. -/
theorem new_subflow_inbound_state (p : Packet) (s : MpState) (sf : MpSubflow)
    (s1 : MpState) (h : new_subflow_inbound p s = some (sf, s1)) :
    sf.subflow_sequence_number = 0 ∧
    s1 = { s with rng := s.rng.tail,
                  last_packetdrill_addr_id := (s.last_packetdrill_addr_id + 1) % 256,
                  subflows := sf :: s.subflows } := by
  unfold new_subflow_inbound at h
  cases hip4 : p.ipv4 with
  | some h4 =>
    rw [hip4] at h
    simp only [Option.some.injEq, Prod.mk.injEq] at h
    obtain ⟨hsf, hs1⟩ := h
    subst hsf; subst hs1; exact ⟨rfl, rfl⟩
  | none =>
    rw [hip4] at h
    cases hip6 : p.ipv6 with
    | none => rw [hip6] at h; simp at h
    | some h6 =>
      rw [hip6] at h
      simp only [Option.some.injEq, Prod.mk.injEq] at h
      obtain ⟨hsf, hs1⟩ := h
      subst hsf; subst hs1; exact ⟨rfl, rfl⟩

/-- Characterization of one inbound DSS-with-DSN step: given an IPv4 packet and
a matching subflow at index `i`, the handler succeeds, writes the network-order
current subflow sequence number, the network-order payload length, and the
network-order shifted DSN, and advances the matched subflow's sequence number
by the computed payload length. -/
theorem dss_dsn_step (s : MpState) (pkt live : Packet) (opt : TcpOption)
    (h4 : Ipv4Hdr) (i : Nat)
    (hdsn : opt.dss_flag_dsn = true) (hip : pkt.ipv4 = some h4)
    (hfind : find_subflow_matching_inbound_packet s pkt = some i)
    (hlen : opt.length = TCPOLEN_DSS_DSN8 ∨ opt.length = TCPOLEN_DSS_DSN8_WOCS) :
    (mptcp_subtype_dss pkt live opt .inbound s).map (fun r => r.1) = some .ok ∧
    (mptcp_subtype_dss pkt live opt .inbound s).map (fun r => r.2.1) =
      some (advanceSubflowSeq s i (dss_payload_len pkt h4)) ∧
    (mptcp_subtype_dss pkt live opt .inbound s).map (fun r => r.2.2.dss_ssn) =
      some (c_htonl (s.subflows.getD i {}).subflow_sequence_number) ∧
    (mptcp_subtype_dss pkt live opt .inbound s).map (fun r => r.2.2.dss_dll) =
      some (c_htons (dss_payload_len pkt h4)) ∧
    (mptcp_subtype_dss pkt live opt .inbound s).map (fun r => r.2.2.dss_dsn) =
      some (if opt.length = TCPOLEN_DSS_DSN8 then
          c_htobe64 (s.initial_dsn + opt.dss_dsn)
        else c_htobe64 (s.initial_dsn + opt.dss_dsn + 1)) := by
  rcases hlen with hl | hl
  · by_cases hd : opt.dss_flag_dack = true
    all_goals
      refine ⟨?_, ?_, ?_, ?_, ?_⟩ <;>
        simp [mptcp_subtype_dss, advanceSubflowSeq, hdsn, hl, hip, hfind, hd]
  · have hne : opt.length ≠ TCPOLEN_DSS_DSN8 := by
      rw [hl]; decide
    by_cases hd : opt.dss_flag_dack = true
    all_goals
      refine ⟨?_, ?_, ?_, ?_, ?_⟩ <;>
        simp [mptcp_subtype_dss, advanceSubflowSeq, hdsn, hl, hne, hip, hfind, hd,
          TCPOLEN_DSS_DSN8, TCPOLEN_DSS_DSN8_WOCS]
/-- `findSubflowIdx` returns an index into the list. -/
theorem findSubflowIdx_lt_length (p : MpSubflow → Bool) (l : List MpSubflow)
    (i : Nat) (h : findSubflowIdx p l = some i) : i < l.length := by
  induction l generalizing i with
  | nil => simp [findSubflowIdx] at h
  | cons sf rest ih =>
    unfold findSubflowIdx at h
    by_cases hp : p sf = true
    · rw [if_pos hp] at h
      obtain rfl := Option.some.inj h
      simp
    · rw [if_neg hp] at h
      rcases hmap : findSubflowIdx p rest with _ | j
      · rw [hmap] at h; simp at h
      · rw [hmap] at h
        simp at h
        have := ih j hmap
        simp only [List.length_cons]
        omega

/-- Reading back the advanced subflow. -/
theorem advanceSubflowSeq_getD (s : MpState) (i plen : Nat)
    (hi : i < s.subflows.length) :
    ((advanceSubflowSeq s i plen).subflows.getD i {}).subflow_sequence_number =
      ((s.subflows.getD i {}).subflow_sequence_number + plen) % 2 ^ 32 := by
  simp [advanceSubflowSeq, List.getD, List.getElem?_set, hi]

/-- Claim C4 (amended): for every inbound DSS option carrying a DSN (either
variant), the data_level_length written into the option is the network-order
image of `ip_total_bytes − 8·ihl − (tcp_header_len − 20)` computed in 16-bit
arithmetic — the source multiplies the IP header-length field `ihl` by 8, i.e.
twice the actual IP header byte length, so for a standard 20-byte IP header the
written value is the true TCP payload length `ip_total − ip_hdr − tcp_hdr`
rather than the claimed `ip_total − ip_hdr − (tcp_hdr − 20)`. -/
theorem c4_data_level_length (s : MpState) (pkt live : Packet) (opt : TcpOption)
    (h4 : Ipv4Hdr) (i : Nat)
    (hdsn : opt.dss_flag_dsn = true) (hip : pkt.ipv4 = some h4)
    (hfind : find_subflow_matching_inbound_packet s pkt = some i)
    (hlen : opt.length = TCPOLEN_DSS_DSN8 ∨ opt.length = TCPOLEN_DSS_DSN8_WOCS) :
    (mptcp_subtype_dss pkt live opt .inbound s).map (fun r => r.2.2.dss_dll) =
      some (c_htons (dss_payload_len pkt h4)) :=
  (dss_dsn_step s pkt live opt h4 i hdsn hip hfind hlen).2.2.2.1

/-- Claim C4, counterexample to the claim as stated: on a packet with a
standard 20-byte IPv4 header (ihl = 5), 60 total bytes and a 32-byte TCP
header, the claim's formula with the actual IP header length
(`60 − 20 − (32 − 20) = 28`) does not match the value the engine writes
(which is `htons 8`, the true payload length). -/
theorem c4_counterexample :
    (mptcp_subtype_dss exDssPkt exDssPkt exDssOptCs .inbound exDssState).map
      (fun r => r.2.2.dss_dll) ≠
    some (c_htons (u16ofInt ((60 : Int) - 4 * 5 - (4 * 8 - 20)))) := by decide

/-- Witness for C4's amended theorem at a concrete packet. -/
theorem c4_witness :
    exDssOptCs.dss_flag_dsn = true ∧
    exDssPkt.ipv4 = some { ihl := 5 } ∧
    find_subflow_matching_inbound_packet exDssState exDssPkt = some 0 ∧
    (mptcp_subtype_dss exDssPkt exDssPkt exDssOptCs .inbound exDssState).map
      (fun r => r.2.2.dss_dll) =
      some (c_htons (dss_payload_len exDssPkt { ihl := 5 })) :=
  ⟨by decide, by decide, by decide,
    c4_data_level_length exDssState exDssPkt exDssPkt exDssOptCs { ihl := 5 } 0
      (by decide) (by decide) (by decide) (Or.inl (by decide))⟩

/-- Claim C5: for every inbound DSS option carrying a DSN, the DSN written into
the option is the network-order image of `initial_dsn + raw_dsn` when the
variant carries a checksum, and of `initial_dsn + raw_dsn + 1` when it omits
the checksum. -/
theorem c5_dsn_rewrite (s : MpState) (pkt live : Packet) (opt : TcpOption)
    (h4 : Ipv4Hdr) (i : Nat)
    (hdsn : opt.dss_flag_dsn = true) (hip : pkt.ipv4 = some h4)
    (hfind : find_subflow_matching_inbound_packet s pkt = some i) :
    (opt.length = TCPOLEN_DSS_DSN8 →
      (mptcp_subtype_dss pkt live opt .inbound s).map (fun r => r.2.2.dss_dsn) =
        some (c_htobe64 (s.initial_dsn + opt.dss_dsn))) ∧
    (opt.length = TCPOLEN_DSS_DSN8_WOCS →
      (mptcp_subtype_dss pkt live opt .inbound s).map (fun r => r.2.2.dss_dsn) =
        some (c_htobe64 (s.initial_dsn + opt.dss_dsn + 1))) := by
  constructor
  · intro hl
    have h := (dss_dsn_step s pkt live opt h4 i hdsn hip hfind (Or.inl hl)).2.2.2.2
    rwa [if_pos hl] at h
  · intro hl
    have hne : opt.length ≠ TCPOLEN_DSS_DSN8 := by rw [hl]; decide
    have h := (dss_dsn_step s pkt live opt h4 i hdsn hip hfind (Or.inr hl)).2.2.2.2
    rwa [if_neg hne] at h

/-- Witness for C5 at concrete packets, one per variant. -/
theorem c5_witness :
    exDssOptCs.length = TCPOLEN_DSS_DSN8 ∧
    exDssOptWo.length = TCPOLEN_DSS_DSN8_WOCS ∧
    (mptcp_subtype_dss exDssPkt exDssPkt exDssOptCs .inbound exDssState).map
      (fun r => r.2.2.dss_dsn) =
      some (c_htobe64 (exDssState.initial_dsn + exDssOptCs.dss_dsn)) ∧
    (mptcp_subtype_dss exDssPkt exDssPkt exDssOptWo .inbound exDssState).map
      (fun r => r.2.2.dss_dsn) =
      some (c_htobe64 (exDssState.initial_dsn + exDssOptWo.dss_dsn + 1)) :=
  ⟨by decide, by decide,
    (c5_dsn_rewrite exDssState exDssPkt exDssPkt exDssOptCs { ihl := 5 } 0
      (by decide) (by decide) (by decide)).1 (by decide),
    (c5_dsn_rewrite exDssState exDssPkt exDssPkt exDssOptWo { ihl := 5 } 0
      (by decide) (by decide) (by decide)).2 (by decide)⟩

/-- Claim C1 (amended): after the MP_CAPABLE handshake, both MP_JOIN SYN
branches — the inbound case 1 and the outbound case 4 — write
`htonl(sha1_least_32bits(peer_key))`, i.e. the LEAST-significant 32 bits of
SHA1 of the peer (kernel) key, in network byte order, into the option's
receiver_token field.  (The claim as stated — the most-significant 32 bits —
is refuted by `c1_counterexample`.) -/
theorem c1_receiver_token (s : MpState) (pkt live : Packet) (opt : TcpOption)
    (h4 : Ipv4Hdr)
    (hsyn : pkt.tcp.syn = true) (hack : pkt.tcp.ack = false)
    (hlen : opt.length = TCPOLEN_MP_JOIN_SYN) :
    (pkt.ipv4 = some h4 →
      (mptcp_subtype_mp_join pkt live opt .inbound s).map
        (fun r => r.2.2.join_receiver_token) =
        some (c_htonl (sha1_least_32bits s.kernel_key))) ∧
    (∀ sf s1, new_subflow_outbound live s = some (sf, s1) →
      (mptcp_subtype_mp_join pkt live opt .outbound s).map
        (fun r => r.2.2.join_receiver_token) =
        some (c_htonl (sha1_least_32bits s.kernel_key))) := by
  constructor
  · intro hip
    simp [mptcp_subtype_mp_join, hsyn, hack, hlen, new_subflow_inbound, hip,
      generate_32]
  · intro sf s1 h
    have hs1 := new_subflow_outbound_state live s sf s1 h
    simp [mptcp_subtype_mp_join, hsyn, hack, hlen, h, hs1]

/-- Claim C1, counterexample to the claim as stated: with the peer key
0xAABBCCDDEEFF0011, the value the inbound MP_JOIN SYN branch writes is not the
network-order image of the most-significant 32 bits of SHA1 of the key. -/
theorem c1_counterexample :
    (mptcp_subtype_mp_join exJoinSynPkt exJoinSynPkt exJoinSynOpt .inbound
      exJoinState).map (fun r => r.2.2.join_receiver_token) ≠
      some (c_htonl (token32_claim exJoinState.kernel_key)) := by decide

/-- Witness for C1's amended theorem at concrete packets, one per branch. -/
theorem c1_witness :
    exJoinSynPkt.ipv4 = some { src_ip := 1, dst_ip := 2 } ∧
    (mptcp_subtype_mp_join exJoinSynPkt exJoinSynPkt exJoinSynOpt .inbound
      exJoinState).map (fun r => r.2.2.join_receiver_token) =
      some (c_htonl (sha1_least_32bits exJoinState.kernel_key)) ∧
    new_subflow_outbound exOutJoinLive exJoinState =
      some (exOutSubflowRes.1, exOutSubflowRes.2) ∧
    (mptcp_subtype_mp_join exOutJoinSynPkt exOutJoinLive exJoinSynOpt .outbound
      exJoinState).map (fun r => r.2.2.join_receiver_token) =
      some (c_htonl (sha1_least_32bits exJoinState.kernel_key)) :=
  ⟨by decide,
    (c1_receiver_token exJoinState exJoinSynPkt exJoinSynPkt exJoinSynOpt
      { src_ip := 1, dst_ip := 2 } (by decide) (by decide) (by decide)).1 (by decide),
    by decide,
    (c1_receiver_token exJoinState exOutJoinSynPkt exOutJoinLive exJoinSynOpt {}
      (by decide) (by decide) (by decide)).2 exOutSubflowRes.1 exOutSubflowRes.2
      (by decide)⟩

/-- Claim C2: the 20-byte sender_hmac synthesized for an MP_JOIN ACK is
HMAC-SHA1 with the 16-byte key `local_key ‖ peer_key` and message
`(local_rand, peer_rand)` for the inbound case, and with the swapped order
`peer_key ‖ local_key`, `(peer_rand, local_rand)` for the outbound case; each
key occupies 8 bytes and each nonce 4 bytes of the serialized buffers (in the
host's byte order, as produced by the source's `unsigned long` stores). -/
theorem c2_join_ack_hmac (s : MpState) (pkt live : Packet) (opt : TcpOption)
    (i : Nat)
    (hlen : opt.length = TCPOLEN_MP_JOIN_ACK)
    (hsyn : pkt.tcp.syn = false) (hack : pkt.tcp.ack = true) :
    (find_subflow_matching_inbound_packet s pkt = some i →
      (mptcp_subtype_mp_join pkt live opt .inbound s).map
        (fun r => r.2.2.join_ack_sender_hmac) =
      some (hmac_sha1 (bytesLE 8 s.packetdrill_key ++ bytesLE 8 s.kernel_key)
        (bytesLE 4 (s.subflows.getD i {}).packetdrill_rand_nbr ++
         bytesLE 4 (s.subflows.getD i {}).kernel_rand_nbr))) ∧
    (find_subflow_matching_outbound_packet s pkt = some i →
      (mptcp_subtype_mp_join pkt live opt .outbound s).map
        (fun r => r.2.2.join_ack_sender_hmac) =
      some (hmac_sha1 (bytesLE 8 s.kernel_key ++ bytesLE 8 s.packetdrill_key)
        (bytesLE 4 (s.subflows.getD i {}).kernel_rand_nbr ++
         bytesLE 4 (s.subflows.getD i {}).packetdrill_rand_nbr))) := by
  constructor
  · intro hfind
    simp [mptcp_subtype_mp_join, hsyn, hack, hlen, hfind,
      hmacKeyBuf_eq, hmacMsgBuf_eq, TCPOLEN_MP_JOIN_SYN, TCPOLEN_MP_JOIN_SYN_ACK,
      TCPOLEN_MP_JOIN_ACK]
  · intro hfind
    simp [mptcp_subtype_mp_join, hsyn, hack, hlen, hfind,
      hmacKeyBuf_eq, hmacMsgBuf_eq, TCPOLEN_MP_JOIN_SYN, TCPOLEN_MP_JOIN_SYN_ACK,
      TCPOLEN_MP_JOIN_ACK]

/-- Witness for C2 at concrete packets, one per direction. -/
theorem c2_witness :
    find_subflow_matching_inbound_packet exJoinStateWithSf exJoinAckPkt = some 0 ∧
    find_subflow_matching_outbound_packet exJoinStateWithSf exJoinAckOutPkt = some 0 ∧
    (mptcp_subtype_mp_join exJoinAckPkt exJoinAckPkt exJoinAckOpt .inbound
      exJoinStateWithSf).map (fun r => r.2.2.join_ack_sender_hmac) =
      some (hmac_sha1
        (bytesLE 8 exJoinStateWithSf.packetdrill_key ++
         bytesLE 8 exJoinStateWithSf.kernel_key)
        (bytesLE 4 (exJoinStateWithSf.subflows.getD 0 {}).packetdrill_rand_nbr ++
         bytesLE 4 (exJoinStateWithSf.subflows.getD 0 {}).kernel_rand_nbr)) ∧
    (mptcp_subtype_mp_join exJoinAckOutPkt exJoinAckOutPkt exJoinAckOpt .outbound
      exJoinStateWithSf).map (fun r => r.2.2.join_ack_sender_hmac) =
      some (hmac_sha1
        (bytesLE 8 exJoinStateWithSf.kernel_key ++
         bytesLE 8 exJoinStateWithSf.packetdrill_key)
        (bytesLE 4 (exJoinStateWithSf.subflows.getD 0 {}).kernel_rand_nbr ++
         bytesLE 4 (exJoinStateWithSf.subflows.getD 0 {}).packetdrill_rand_nbr)) :=
  ⟨by decide, by decide,
    (c2_join_ack_hmac exJoinStateWithSf exJoinAckPkt exJoinAckPkt exJoinAckOpt 0
      (by decide) (by decide) (by decide)).1 (by decide),
    (c2_join_ack_hmac exJoinStateWithSf exJoinAckOutPkt exJoinAckOutPkt
      exJoinAckOpt 0 (by decide) (by decide) (by decide)).2 (by decide)⟩

/-- Claim C6: a freshly created subflow starts with subflow_seq 0; each inbound
DSS-with-DSN handler writes the subflow's current subflow_seq into the option
(network order) and then advances the stored counter by exactly the computed
payload length; hence for two consecutive such packets on the same subflow the
value written into option n+1 is the value written into option n plus packet
n's payload length (modulo 2^32).  `payload_len` is the handler's computed
payload `dss_payload_len` (see C4 for its exact formula). -/
theorem c6_subflow_seq_growth :
    (∀ (p : Packet) (s : MpState) (sf : MpSubflow) (s1 : MpState),
      new_subflow_inbound p s = some (sf, s1) →
      sf.subflow_sequence_number = 0) ∧
    (∀ (s : MpState) (pkt live : Packet) (opt : TcpOption) (h4 : Ipv4Hdr) (i : Nat),
      opt.dss_flag_dsn = true → pkt.ipv4 = some h4 →
      find_subflow_matching_inbound_packet s pkt = some i →
      (opt.length = TCPOLEN_DSS_DSN8 ∨ opt.length = TCPOLEN_DSS_DSN8_WOCS) →
      (mptcp_subtype_dss pkt live opt .inbound s).map (fun r => r.2.2.dss_ssn) =
        some (c_htonl (s.subflows.getD i {}).subflow_sequence_number) ∧
      (mptcp_subtype_dss pkt live opt .inbound s).map (fun r => r.2.1) =
        some (advanceSubflowSeq s i (dss_payload_len pkt h4))) ∧
    (∀ (s : MpState) (p1 p2 : Packet) (o1 o2 : TcpOption) (h4a h4b : Ipv4Hdr)
        (i : Nat) (r1 : Status × MpState × TcpOption),
      o1.dss_flag_dsn = true → p1.ipv4 = some h4a →
      find_subflow_matching_inbound_packet s p1 = some i →
      (o1.length = TCPOLEN_DSS_DSN8 ∨ o1.length = TCPOLEN_DSS_DSN8_WOCS) →
      mptcp_subtype_dss p1 p1 o1 .inbound s = some r1 →
      o2.dss_flag_dsn = true → p2.ipv4 = some h4b →
      find_subflow_matching_inbound_packet r1.2.1 p2 = some i →
      (o2.length = TCPOLEN_DSS_DSN8 ∨ o2.length = TCPOLEN_DSS_DSN8_WOCS) →
      (mptcp_subtype_dss p2 p2 o2 .inbound r1.2.1).map (fun r => r.2.2.dss_ssn) =
        some (c_htonl (((s.subflows.getD i {}).subflow_sequence_number +
          dss_payload_len p1 h4a) % 2 ^ 32))) := by
  refine ⟨fun p s sf s1 h => (new_subflow_inbound_state p s sf s1 h).1, ?_, ?_⟩
  · intro s pkt live opt h4 i hdsn hip hfind hlen
    exact ⟨(dss_dsn_step s pkt live opt h4 i hdsn hip hfind hlen).2.2.1,
      (dss_dsn_step s pkt live opt h4 i hdsn hip hfind hlen).2.1⟩
  · intro s p1 p2 o1 o2 h4a h4b i r1 hd1 hip1 hf1 hl1 hr1 hd2 hip2 hf2 hl2
    have hstate : r1.2.1 = advanceSubflowSeq s i (dss_payload_len p1 h4a) := by
      have h2 := (dss_dsn_step s p1 p1 o1 h4a i hd1 hip1 hf1 hl1).2.1
      rw [hr1] at h2
      simpa using h2
    have step2 := (dss_dsn_step r1.2.1 p2 p2 o2 h4b i hd2 hip2 hf2 hl2).2.2.1
    rw [step2, hstate]
    have hi : i < s.subflows.length :=
      findSubflowIdx_lt_length (subflow_match_inbound p1) s.subflows i hf1
    rw [advanceSubflowSeq_getD s i (dss_payload_len p1 h4a) hi]

/-- Witness for C6: a creation, one DSS step, and two consecutive DSS steps at
concrete inputs. -/
theorem c6_witness :
    new_subflow_inbound exJoinSynPkt exJoinState =
      some (exNewSubflowRes.1, exNewSubflowRes.2) ∧
    exNewSubflowRes.1.subflow_sequence_number = 0 ∧
    (mptcp_subtype_dss exDssPkt exDssPkt exDssOptCs .inbound exDssState).map
      (fun r => r.2.2.dss_ssn) =
      some (c_htonl (exDssState.subflows.getD 0 {}).subflow_sequence_number) ∧
    mptcp_subtype_dss exDssPkt exDssPkt exDssOptCs .inbound exDssState =
      some exDssR1 ∧
    (mptcp_subtype_dss exDssPkt exDssPkt exDssOptCs2 .inbound exDssR1.2.1).map
      (fun r => r.2.2.dss_ssn) =
      some (c_htonl (((exDssState.subflows.getD 0 {}).subflow_sequence_number +
        dss_payload_len exDssPkt { ihl := 5 }) % 2 ^ 32)) :=
  ⟨by decide,
    c6_subflow_seq_growth.1 exJoinSynPkt exJoinState exNewSubflowRes.1
      exNewSubflowRes.2 (by decide),
    ((c6_subflow_seq_growth.2.1 exDssState exDssPkt exDssPkt exDssOptCs
      { ihl := 5 } 0 (by decide) (by decide) (by decide)
      (Or.inl (by decide)))).1,
    by decide,
    c6_subflow_seq_growth.2.2 exDssState exDssPkt exDssPkt exDssOptCs exDssOptCs2
      { ihl := 5 } { ihl := 5 } 0 exDssR1 (by decide) (by decide) (by decide)
      (Or.inl (by decide)) (by decide) (by decide) (by decide) (by decide)
      (Or.inl (by decide))⟩

/-- Claim C10 (amended): the unguarded subflow dereferences in the inbound
DSS-with-DSN branches and in the outbound MP_JOIN SYN branch are safe exactly
under the precondition that the lookup (resp. the creation) succeeds; that
precondition is NOT guaranteed by the dispatch conditions — the failure branch
is reachable (see `c10_counterexample`), in which case the C code dereferences
NULL. -/
theorem c10_deref_guarded (s : MpState) (pkt live : Packet) (opt : TcpOption)
    (h4 : Ipv4Hdr) (i : Nat) :
    (opt.dss_flag_dsn = true → pkt.ipv4 = some h4 →
      find_subflow_matching_inbound_packet s pkt = some i →
      (opt.length = TCPOLEN_DSS_DSN8 ∨ opt.length = TCPOLEN_DSS_DSN8_WOCS) →
      (mptcp_subtype_dss pkt live opt .inbound s).isSome = true) ∧
    (pkt.tcp.syn = true → pkt.tcp.ack = false →
      opt.length = TCPOLEN_MP_JOIN_SYN →
      ∀ sf s1, new_subflow_outbound live s = some (sf, s1) →
      (mptcp_subtype_mp_join pkt live opt .outbound s).isSome = true) := by
  constructor
  · intro hdsn hip hfind hlen
    have h := (dss_dsn_step s pkt live opt h4 i hdsn hip hfind hlen).1
    rcases hr : mptcp_subtype_dss pkt live opt .inbound s with _ | r
    · rw [hr] at h; simp at h
    · simp
  · intro hsyn hack hlen sf s1 h
    simp [mptcp_subtype_mp_join, hsyn, hack, hlen, h]

/-- Claim C10, counterexample to the claim as stated: on a fresh session with
no subflows, an inbound DSS-with-DSN packet reaches the branch and the subflow
lookup returns NULL, which the branch dereferences (modelled as `none`). -/
theorem c10_counterexample :
    find_subflow_matching_inbound_packet (init_mp_state []) exDssPkt = none ∧
    mptcp_subtype_dss exDssPkt exDssPkt exDssOptCs .inbound (init_mp_state []) =
      none := by decide

/-- Witness for C10's amended theorem at concrete inputs. -/
theorem c10_witness :
    find_subflow_matching_inbound_packet exDssState exDssPkt = some 0 ∧
    (mptcp_subtype_dss exDssPkt exDssPkt exDssOptCs .inbound exDssState).isSome =
      true ∧
    new_subflow_outbound exOutJoinLive exJoinState =
      some (exOutSubflowRes.1, exOutSubflowRes.2) ∧
    (mptcp_subtype_mp_join exOutJoinSynPkt exOutJoinLive exJoinSynOpt .outbound
      exJoinState).isSome = true :=
  ⟨by decide,
    (c10_deref_guarded exDssState exDssPkt exDssPkt exDssOptCs { ihl := 5 } 0).1
      (by decide) (by decide) (by decide) (Or.inl (by decide)),
    by decide,
    (c10_deref_guarded exJoinState exOutJoinSynPkt exOutJoinLive exJoinSynOpt
      {} 0).2 (by decide) (by decide) (by decide) exOutSubflowRes.1
      exOutSubflowRes.2 (by decide)⟩

/-! ## Preservation of `initial_dack` (helper lemmas for C3) -/

theorem initial_dack_find_next_key (s : MpState) :
    (find_next_key s).2.initial_dack = s.initial_dack := by
  rcases hq : s.vars_queue with _ | ⟨n, rest⟩
  · simp [find_next_key, hq]
  · rcases hf : find_mp_var s n with _ | v
    · simp [find_next_key, hq, hf]
    · by_cases hsub : v.subtype = MP_CAPABLE_SUBTYPE <;>
        simp [find_next_key, hq, hf, hsub]

theorem initial_dack_gen_key (s : MpState) :
    (mptcp_gen_key s).2.initial_dack = s.initial_dack := by
  rcases hq : s.vars_queue with _ | ⟨n, rest⟩
  · simp [mptcp_gen_key, hq]
  · unfold mptcp_gen_key
    rw [hq]
    simp only [List.head?_cons]
    rcases hf : find_mp_var s n with _ | v
    · simp only [hf]
      split <;> simp [set_packetdrill_key, add_mp_var_key, add_mp_var, rand_64]
    · simp only [hf]
      by_cases hcond : v.subtype = MP_CAPABLE_SUBTYPE ∧ v.script_defined = true
      · simp only [if_pos hcond]
        split <;> simp [set_packetdrill_key, add_mp_var_key, add_mp_var, rand_64]
      · simp only [if_neg hcond]
        split <;> simp [set_packetdrill_key, add_mp_var_key, add_mp_var, rand_64]

theorem initial_dack_set_syn_key (opt : TcpOption) (s : MpState) :
    (mptcp_set_mp_cap_syn_key opt s).2.1.initial_dack = s.initial_dack := by
  unfold mptcp_set_mp_cap_syn_key
  split <;> simp [initial_dack_find_next_key]

theorem initial_dack_set_keys (opt : TcpOption) (s : MpState) :
    (mptcp_set_mp_cap_keys opt s).2.1.initial_dack = s.initial_dack := by
  unfold mptcp_set_mp_cap_keys
  split
  · simp [initial_dack_find_next_key]
  · split <;>
      simp [initial_dack_find_next_key,
        (initial_dack_find_next_key (find_next_key s).2).trans
          (initial_dack_find_next_key s)]

theorem initial_dack_extract (live : Packet) (s : MpState) :
    (extract_and_set_kernel_key live s).2.initial_dack = s.initial_dack := by
  unfold extract_and_set_kernel_key
  rcases hopt : get_tcp_option live TCPOPT_MPTCP with _ | mpcap
  · simp
  · rcases hq : s.vars_queue with _ | ⟨n, rest⟩
    · simp only [hq, List.head?_nil]
      split <;> simp [set_kernel_key, hq]
    · simp only [hq, List.head?_cons]
      rcases hf : find_mp_var s n with _ | v
      · simp only [hf]
        split <;> simp [set_kernel_key, add_mp_var_key, add_mp_var, hq]
      · simp only [hf]
        by_cases hcond : v.subtype = MP_CAPABLE_SUBTYPE ∧ v.script_defined = true
        · simp only [if_pos hcond]
          split <;> simp [set_kernel_key, add_mp_var_key, add_mp_var, hq]
        · simp only [if_neg hcond]
          split <;> simp [set_kernel_key, add_mp_var_key, add_mp_var, hq]

theorem initial_dack_new_subflow_inbound (p : Packet) (s : MpState) :
    (((new_subflow_inbound p s).map (fun r => r.2)).getD s).initial_dack =
      s.initial_dack := by
  rcases h : new_subflow_inbound p s with _ | ⟨sf, s1⟩
  · simp
  · have hs := (new_subflow_inbound_state p s sf s1 h).2
    simp [hs]

theorem initial_dack_new_subflow_outbound (p : Packet) (s : MpState) :
    (((new_subflow_outbound p s).map (fun r => r.2)).getD s).initial_dack =
      s.initial_dack := by
  rcases h : new_subflow_outbound p s with _ | ⟨sf, s1⟩
  · simp
  · have hs := new_subflow_outbound_state p s sf s1 h
    simp [hs]

theorem initial_dack_mp_capable (pkt live : Packet) (opt : TcpOption)
    (dir : Direction) (s : MpState) :
    ((mptcp_subtype_mp_capable pkt live opt dir s).2.1).initial_dack =
      s.initial_dack := by
  unfold mptcp_subtype_mp_capable
  split
  · rw [initial_dack_set_syn_key, initial_dack_gen_key]
  · split
    · rw [initial_dack_set_syn_key, initial_dack_extract]
    · split
      · rcases dir with _ | _
        · simpa [initial_dack_new_subflow_inbound] using
            initial_dack_set_keys opt s
        · simpa [initial_dack_new_subflow_outbound] using
            initial_dack_set_keys opt s
      · split
        · rw [initial_dack_set_syn_key, initial_dack_gen_key]
        · rfl

/-- Claim C3 (code bug): the engine never derives `initial_dack` at all — the
final-ACK MP_CAPABLE handler (the trigger that sets `initial_dsn`) leaves
`initial_dack` untouched in every branch, and after the concrete complete
handshake the field still holds its zero initial value, which differs from the
claimed `sha1_least_64bits(peer_key)`; a subsequent inbound DSS data_ack is
rewritten as `0 + raw_dack` instead of `initial_dack + raw_dack` with the
derived value. -/
theorem c3_initial_dack_never_derived :
    (∀ (pkt live : Packet) (opt : TcpOption) (dir : Direction) (s : MpState),
      ((mptcp_subtype_mp_capable pkt live opt dir s).2.1).initial_dack =
        s.initial_dack) ∧
    c3_r1.map (fun r => r.1) = some .ok ∧
    c3_r2.map (fun r => r.1) = some .ok ∧
    c3_r3.map (fun r => r.1) = some .ok ∧
    c3_sf.kernel_key = 0xAABBCCDDEEFF0011 ∧
    c3_sf.initial_dsn = sha1_least_64bits c3_sf.packetdrill_key ∧
    c3_sf.initial_dack = 0 ∧
    sha1_least_64bits c3_sf.kernel_key ≠ 0 ∧
    (mptcp_subtype_dss c3_p4 c3_p4 c3_dssAckOpt .inbound c3_sf).map
      (fun r => r.2.2.dss_dack) = some (c_htobe64 1234) :=
  ⟨initial_dack_mp_capable, by decide, by decide, by decide, by decide,
    by decide, by decide, by decide, by decide⟩

/-- Claim C7 (amended): `mptcp_gen_key` is idempotent — an immediate second
call returns the same status and changes nothing — and neither `mptcp_gen_key`
nor `extract_and_set_kernel_key` alters any part of the state once the
respective key is set, PROVIDED the front pending variable does not resolve to
a script-defined MP_CAPABLE binding; a script-defined binding for the front
name overwrites an already-set key (script-defined wins), so the keys are not
unconditionally immutable (see `c7_counterexample`). -/
theorem c7_key_setters (s : MpState) (live : Packet) :
    mptcp_gen_key ((mptcp_gen_key s).2) = mptcp_gen_key s ∧
    (s.packetdrill_key_set = true → front_script_defined s = false →
      (mptcp_gen_key s).2 = s) ∧
    (s.kernel_key_set = true → front_script_defined s = false →
      (extract_and_set_kernel_key live s).2 = s) := by
  refine ⟨?_, ?_, ?_⟩
  · rcases hq : s.vars_queue with _ | ⟨n, rest⟩
    · simp [mptcp_gen_key, hq]
    · rcases hf : find_mp_var s n with _ | v
      · by_cases hset : s.packetdrill_key_set = true
        · have h1 : mptcp_gen_key s = (.ok, s) := by
            simp [mptcp_gen_key, hq, hf, hset]
          rw [h1]; exact h1
        · have h1 : mptcp_gen_key s = (.ok,
              add_mp_var_key n .pdKeyRef
                (set_packetdrill_key ((rand_64 s).1) ((rand_64 s).2))) := by
            simp [mptcp_gen_key, hq, hf, hset]
          rw [h1]
          simp [mptcp_gen_key, find_mp_var, add_mp_var_key, add_mp_var,
            set_packetdrill_key, rand_64, hq]
      · by_cases hcond : v.subtype = MP_CAPABLE_SUBTYPE ∧ v.script_defined = true
        · have h1 : mptcp_gen_key s =
              (.ok, set_packetdrill_key (var_deref s v.value) s) := by
            simp [mptcp_gen_key, hq, hf, hcond, set_packetdrill_key]
          rw [h1]
          have hq1 : (set_packetdrill_key (var_deref s v.value) s).vars_queue =
              n :: rest := by simp [set_packetdrill_key, hq]
          have hf1 : find_mp_var (set_packetdrill_key (var_deref s v.value) s) n =
              some v := hf
          rcases hv : v.value with w | _ | _ <;>
            simp_all [mptcp_gen_key, hq1, hf1, hcond, set_packetdrill_key,
              var_deref, Nat.mod_mod_of_dvd]
        · by_cases hset : s.packetdrill_key_set = true
          · have h1 : mptcp_gen_key s = (.ok, s) := by
              simp [mptcp_gen_key, hq, hf, hcond, hset]
            rw [h1]; exact h1
          · have h1 : mptcp_gen_key s = (.ok,
                add_mp_var_key n .pdKeyRef
                  (set_packetdrill_key ((rand_64 s).1) ((rand_64 s).2))) := by
              simp [mptcp_gen_key, hq, hf, hcond, hset]
            rw [h1]
            simp [mptcp_gen_key, find_mp_var, add_mp_var_key, add_mp_var,
              set_packetdrill_key, rand_64, hq]
  · intro hset hfront
    rcases hq : s.vars_queue with _ | ⟨n, rest⟩
    · simp [mptcp_gen_key, hq]
    · rcases hf : find_mp_var s n with _ | v
      · simp [mptcp_gen_key, hq, hf, hset]
      · have hcond : ¬(v.subtype = MP_CAPABLE_SUBTYPE ∧ v.script_defined = true) := by
          intro ⟨h1, h2⟩
          simp [front_script_defined, hq, hf, h1, h2] at hfront
        simp [mptcp_gen_key, hq, hf, hcond, hset]
  · intro hset hfront
    unfold extract_and_set_kernel_key
    rcases hopt : get_tcp_option live TCPOPT_MPTCP with _ | mpcap
    · rfl
    · rcases hq : s.vars_queue with _ | ⟨n, rest⟩
      · simp [hq, hset]
      · rcases hf : find_mp_var s n with _ | v
        · simp [hq, hf, hset]
        · have hcond : ¬(v.subtype = MP_CAPABLE_SUBTYPE ∧ v.script_defined = true) := by
            intro ⟨h1, h2⟩
            simp [front_script_defined, hq, hf, h1, h2] at hfront
          simp [hq, hf, hcond, hset]

/-- Claim C7, counterexample to the claim as stated: a session whose key was
set by random generation (value 5) and whose pending-variable queue later
fronts a script-defined name "b" (value 2): the second `mptcp_gen_key` call
overwrites the already-set key — the setter is not a no-op while
`packetdrill_key_set` is true. -/
theorem c7_counterexample :
    c7_s1.packetdrill_key_set = true ∧ c7_s1.packetdrill_key = 5 ∧
    c7_s2.packetdrill_key_set = true ∧ c7_s2.packetdrill_key = 5 ∧
    c7_s3.packetdrill_key = 2 := by decide

/-- Witness for C7's amended theorem at a concrete state. -/
theorem c7_witness :
    exJoinState.packetdrill_key_set = true ∧
    exJoinState.kernel_key_set = true ∧
    front_script_defined exJoinState = false ∧
    mptcp_gen_key ((mptcp_gen_key exJoinState).2) = mptcp_gen_key exJoinState ∧
    (mptcp_gen_key exJoinState).2 = exJoinState ∧
    (extract_and_set_kernel_key c8_live exJoinState).2 = exJoinState :=
  ⟨by decide, by decide, by decide,
    (c7_key_setters exJoinState c8_live).1,
    (c7_key_setters exJoinState c8_live).2.1 (by decide) (by decide),
    (c7_key_setters exJoinState c8_live).2.2 (by decide) (by decide)⟩

/-- Claim C8 (code bug): on an outbound MP_CAPABLE SYN whose live packet lacks
an MPTCP option, `extract_and_set_kernel_key` fails with STATUS_ERR, but the
handler's second assignment (`error = mptcp_set_mp_cap_syn_key(...)`, source
line 444, without the `|| error` its sibling branches use) overwrites the
error, so the subroutine and the per-packet entry point report STATUS_OK: a
later successful step masks the earlier failure. -/
theorem c8_error_masked :
    (extract_and_set_kernel_key c8_live c8_state).1 = .err ∧
    (mptcp_subtype_mp_capable c8_pkt c8_live (c8_pkt.options.getD 0 {})
      .outbound c8_state).1 = .ok ∧
    (mptcp_insert_and_extract_opt_fields c8_pkt c8_live .outbound c8_state).map
      (fun r => r.1) = some .ok := by decide

/-- `takeWhile` of a NUL-free prefix stops exactly at the appended NUL. -/
theorem takeWhile_append_nul (name : List Nat) (h : 0 ∉ name) :
    (name ++ [0]).takeWhile (fun b => b ≠ 0) = name := by
  induction name with
  | nil => simp
  | cons a rest ih =>
    have ha : a ≠ 0 := fun hz => h (by simp [hz])
    have hr : (0 : Nat) ∉ rest := fun hz => h (by simp [hz])
    simp [List.takeWhile_cons, ha]
    simpa using ih hr

/-- Claim C9 (code bug): `enqueue_var` copies only `strlen(name)` bytes into a
buffer of exactly that size, so the stored copy lacks the terminating NUL
(contrast `save_mp_var_name`, which copies `strlen+1` bytes — "+1 to copy '/0'
too"); the FIFO round trip returns that buffer, and reading a C string from it
is undefined behaviour (`none`): the claimed faithful round trip fails for
every NUL-free name, so a lookup keyed on the popped pointer does not behave
as a lookup keyed on the original name. -/
theorem c9_enqueue_copy (name : List Nat) (h0 : (0 : Nat) ∉ name) :
    dequeue_var (enqueue_var [] name) = some (enqueue_var_copy name, []) ∧
    readCString (enqueue_var_copy name) = none ∧
    readCString (save_mp_var_name_copy name) = some name := by
  refine ⟨rfl, ?_, ?_⟩
  · have hcopy : enqueue_var_copy name = name := by
      simp [enqueue_var_copy, memcpyBytes, mallocBytes]
    rw [hcopy]
    simp [readCString, h0]
  · have hcopy : save_mp_var_name_copy name = name ++ [0] := by
      simp [save_mp_var_name_copy, memcpyBytes, mallocBytes,
        List.take_of_length_le, List.drop_eq_nil_of_le]
    rw [hcopy]
    simp [readCString]
    simpa using takeWhile_append_nul name h0

/-- Witness for C9 at the one-byte name "a". -/
theorem c9_witness :
    (0 : Nat) ∉ [97] ∧
    dequeue_var (enqueue_var [] [97]) = some (enqueue_var_copy [97], []) ∧
    readCString (enqueue_var_copy [97]) = none ∧
    readCString (save_mp_var_name_copy [97]) = some [97] :=
  ⟨by decide, (c9_enqueue_copy [97] (by decide)).1,
    (c9_enqueue_copy [97] (by decide)).2.1,
    (c9_enqueue_copy [97] (by decide)).2.2⟩

end PacketdrillMptcp
